import Mathlib

/-!
# Verification of the wtickle concurrent HTTP load generator

Shallow embedding of `wtickle.go` (a concurrent HTTP load generator: a
random work generator, a fixed pool of workers issuing GET requests, and a
result collector classifying outcomes), together with proofs and refutations
of the specification's claims about it.

The embedding has three layers:

* the result collector (`reader`, wtickle.go:47-80) as a pure per-outcome
  step function returning `Option` (`none` models a runtime panic such as a
  nil-pointer dereference);
* the worker loop (`worker`, wtickle.go:27-43) as a pure sequential function
  over the list of items a worker receives;
* the whole pipeline (writer/workers/reader/main, wtickle.go:84-167) as a
  small-step transition system over a global state, with the two unbuffered
  channels modelled by rendezvous transitions and the `sync.WaitGroup`
  barrier by the supervisor transition guards.

External collaborators (the HTTP client `client.Do`, `http.NewRequest` URL
parsing, and `math/rand`) are parameters of the model (`Env`), as the spec
scopes them out.
-/

namespace Wtickle

/-! ## Data model: responses and outcomes (wtickle.go:20-23) -/

/-- The fields of `*http.Response` that `reader` touches: the originating
request URL (`resp.Request.URL.String()`), the status line (`resp.Status`,
e.g. `"200 OK"`), the numeric status code (`resp.StatusCode`), and the
header map (`resp.Header`, a map from names to lists of values). -/
structure HttpResponse where
  requestURL : String
  status : String
  statusCode : Nat
  headers : List (String × List String)
deriving DecidableEq

/-- The pair `responseWithError` (wtickle.go:20-23) that a worker sends on the
result channel. `resp = none` models a nil `*http.Response` pointer, which
is what `client.Do` returns alongside a transport error. -/
structure responseWithError where
  resp : Option HttpResponse
  err : Option String
deriving DecidableEq

/-! ## The result collector `reader` (wtickle.go:47-80) -/

/-- Go's `fmt` rendering of a `[]string` value, as it appears in
`fmt.Sprintf("%s: %s", k, v)` at wtickle.go:67: `[v1 v2 ...]`. -/
def sliceRepr (vs : List String) : String :=
  "[" ++ String.intercalate " " vs ++ "]"

/-- One header line of the log record (wtickle.go:67). -/
def headerLine (kv : String × List String) : String :=
  kv.1 ++ ": " ++ sliceRepr kv.2

/-- Models `fmt.Sprintf("%s", re.resp)` (wtickle.go:71), Go's default struct
rendering of the response pointer, abstracted to the fields the embedding
carries. The claims never depend on its exact text, only on which line of
the record it occupies. -/
def respSummary (r : HttpResponse) : String :=
  "&\x7b" ++ r.status ++ " " ++ toString r.statusCode ++ " "
    ++ String.intercalate " " (r.headers.map headerLine) ++ "\x7d"

/-- What one iteration of `reader`'s loop does to one outcome: the progress
character printed (wtickle.go:74), the `tolog` lines built (wtickle.go:57-71,
before the two empty strings appended at wtickle.go:76), and whether
`re.resp.Body.Close()` (wtickle.go:73) executed. -/
structure ReaderEffect where
  emitted : String
  tolog : List String
  bodyClosed : Bool
deriving DecidableEq

/-- One iteration of `reader`'s loop (wtickle.go:48-79) on one outcome.
`none` models a runtime panic:

* with `resp = none`, line 57 (`re.resp.Request.URL.String()`) dereferences
  a nil pointer before anything is printed or logged;
* in the default branch with an empty status line, `re.resp.Status[0:1]`
  (line 70) is a slice out of range.

The branch order follows the `switch` at wtickle.go:59-72: the error case is
tested first, then `StatusCode == http.StatusOK` (200), then the default. -/
def readerStep (re : responseWithError) : Option ReaderEffect :=
  match re.resp with
  | none => none
  | some r =>
    match re.err with
    | some e =>
      some { emitted := "e"
             tolog := [r.requestURL, "Error " ++ e]
             bodyClosed := true }
    | none =>
      if r.statusCode = 200 then
        some { emitted := "."
               tolog := [r.requestURL, r.status] ++ r.headers.map headerLine
               bodyClosed := true }
      else if r.status = "" then
        none
      else
        some { emitted := r.status.take 1
               tolog := [r.requestURL, respSummary r]
               bodyClosed := true }

/-- The progress character `reader` prints for an outcome (wtickle.go:74),
`none` when the iteration panics before printing. -/
def readerSymbol (re : responseWithError) : Option String :=
  (readerStep re).map ReaderEffect.emitted

/-- The log record `reader` appends for an outcome when a log file is
configured (wtickle.go:75-78): the `tolog` lines with the two empty strings
appended (wtickle.go:76); the written text is these lines joined by
newlines. `none` when the iteration panics. -/
def readerRecord (re : responseWithError) : Option (List String) :=
  (readerStep re).map fun eff => eff.tolog ++ ["", ""]

/-- The text actually passed to `log.WriteString` (wtickle.go:77). -/
def readerRecordText (re : responseWithError) : Option String :=
  (readerRecord re).map (String.intercalate "\n")

/-! ## The worker loop (wtickle.go:27-43) -/

/-- A GET request as the worker builds it: `http.NewRequest("GET", url, nil)`
plus the optional `request.Header.Add(hdr, val)` guarded by `hdr != ""`
(wtickle.go:30-37). -/
structure Request where
  url : String
  headers : List (String × String)
deriving DecidableEq

/-- Request construction (wtickle.go:30-37), parameterised by the external
URL-parsing failure `constructErr` (`http.NewRequest` succeeds iff
`constructErr url = none`). The header is attached only when `hdr` is
non-empty, mirroring `if hdr != ""` at wtickle.go:35. -/
def workerRequest (constructErr : String → Option String) (hdr val url : String) :
    Option Request :=
  match constructErr url with
  | some _ => none
  | none => some { url := url, headers := if hdr = "" then [] else [(hdr, val)] }

/-- The worker loop (wtickle.go:29-40) run sequentially over the list of
items this worker receives from the work channel, parameterised by the
external request-construction failure and the HTTP client's response.
Returns the outcomes sent on the result channel and the lines the worker
printed directly to standard output. On a construction failure the worker
prints `Error creating request: ...` and `break`s out of its loop
(wtickle.go:31-34): the item yields no outcome and no further item is
processed. -/
def workerRun (constructErr : String → Option String)
    (doReq : Request → responseWithError) (hdr val : String) :
    List String → List responseWithError × List String
  | [] => ([], [])
  | u :: rest =>
    match constructErr u with
    | some e => ([], ["Error creating request: " ++ e])
    | none =>
      let req : Request :=
        { url := u, headers := if hdr = "" then [] else [(hdr, val)] }
      let out := workerRun constructErr doReq hdr val rest
      (doReq req :: out.1, out.2)

/-! ## Configuration parsing in `main` (wtickle.go:105-146) -/

/-- Splits a character list at its first space, if any. -/
def splitAtFirstSpace : List Char → Option (List Char × List Char)
  | [] => none
  | c :: rest =>
    if c = ' ' then some ([], rest)
    else (splitAtFirstSpace rest).map fun p => (c :: p.1, p.2)

/-- Models `strings.SplitN(s, " ", 2)` (wtickle.go:114): the whole string when it
contains no space, otherwise the parts before and after the first space. -/
def splitN2 (s : String) : List String :=
  match splitAtFirstSpace s.toList with
  | none => [s]
  | some p => [String.mk p.1, String.mk p.2]

/-- The three fatal configuration errors of `main` (wtickle.go:112-146). -/
inductive FatalError where
  | badHeader (header : String)
  | badLogFile (path : String)
  | noURLs
deriving DecidableEq

/-- The single diagnostic line `main` prints for each fatal configuration
error (wtickle.go:116, 128, 144; the log-file message also carries the
OS error text, abstracted here). -/
def diagnosticOf : FatalError → String
  | .badHeader h => "Error: bad header " ++ h ++ "\n"
  | .badLogFile p => "Error creating log file " ++ p ++ ": ...\n"
  | .noURLs => "Error: no URLs found"

/-- Everything `main` has in hand once the prelude succeeds and it is about
to start the workers, the writer and the reader (wtickle.go:148-158). -/
structure Launched where
  hdr : String
  val : String
  logConfigured : Bool
  urls : List String
  par : Nat
  durationPos : Bool
deriving DecidableEq

/-- Header parsing (wtickle.go:112-121): an empty flag means no header;
otherwise the string must split on its first space into exactly two parts. -/
def parseHeader (header : String) : Except FatalError (String × String) :=
  if header = "" then .ok ("", "")
  else
    match splitN2 header with
    | [h, v] => .ok (h, v)
    | _ => .error (.badHeader header)

/-- The sequential prelude of `main` (wtickle.go:112-146), in source order:
header split and validation, log-file creation (its failure is the external
parameter `logCreateFails`), scanning standard input discarding blank lines,
and the empty-URL-set check. Returns the fatal error when one occurs; in
that case `main` returns before creating any channel or goroutine. -/
def mainSetup (par : Nat) (header : String) (durPos : Bool) (logPath : String)
    (logCreateFails : Bool) (stdinLines : List String) : Except FatalError Launched :=
  match parseHeader header with
  | .error e => .error e
  | .ok (hdr, val) =>
    if logPath ≠ "" ∧ logCreateFails = true then .error (.badLogFile logPath)
    else
      let urls := stdinLines.filter fun u => u ≠ ""
      if urls.isEmpty then .error .noURLs
      else
        .ok { hdr := hdr, val := val, logConfigured := logPath ≠ ""
              urls := urls, par := par, durationPos := durPos }

/-- The URLs the process requests, as a function of the prelude's result:
when the prelude ends in a fatal error, no goroutine is started and no
request is dispatched, whatever the rest of the run would have done. -/
def requestsIssued (setup : Except FatalError Launched)
    (run : Launched → List String) : List String :=
  match setup with
  | .error _ => []
  | .ok l => run l

/-! ## The concurrent pipeline as a transition system (wtickle.go:84-167)

The goroutines of a successful run — the writer, the `par` workers, the
reader, and `main` itself after `wg.Wait()` — are modelled by a small-step
relation over a global state. The two unbuffered channels appear as
rendezvous transitions (a send and the matching receive are one step); the
`sync.WaitGroup` appears as the guard of the supervisor's close step,
mirroring the sequential `wg.Wait(); close(result)` at wtickle.go:160-161.
A `crashed` state models an unrecovered panic in any goroutine, which kills
the whole Go process; `supFinished` models `main` returning (which also
ends the process). Neither state has outgoing transitions. -/

/-- The writer goroutine: running its loop, or returned after `close(work)`
(wtickle.go:94-102). -/
inductive GenState where
  | running
  | closed
deriving DecidableEq

/-- One worker goroutine: blocked receiving on `work`, holding a received
URL before/during the request, blocked sending on `result`, or exited
(having called `wg.Done()`). -/
inductive WorkerState where
  | idle
  | working (url : String)
  | sending (re : responseWithError)
  | done
deriving DecidableEq

/-- The reader goroutine: draining `result`, or returned after observing it
closed and empty. -/
inductive CollState where
  | running
  | finished
deriving DecidableEq

/-- The configuration of a launched run, as the pipeline sees it. -/
structure Config where
  urls : List String
  par : Nat
  durationPos : Bool
deriving DecidableEq

/-- The external collaborators of a run: `http.NewRequest` URL-parsing
failure, the HTTP client's behaviour, and the random index stream consumed
by `rand.Intn` at wtickle.go:100 (`rand i` is reduced modulo the URL-set
size, modelling `Intn`'s bound). -/
structure Env where
  constructErr : String → Option String
  respond : String → responseWithError
  rand : Nat → Nat

/-- Global state of a run. `dispatched` records every URL the writer has
handed to a worker, `emitted` every progress character the reader has
printed, `genCount` how many sends the writer has completed (the index into
the random stream). -/
structure SysState where
  gen : GenState
  workers : List WorkerState
  workClosed : Bool
  coll : CollState
  resultClosed : Bool
  supFinished : Bool
  crashed : Bool
  dispatched : List String
  emitted : List String
  genCount : Nat
deriving DecidableEq

/-- The state right after `main` spawns everything (wtickle.go:148-158):
all workers blocked on the empty work channel, both channels open. -/
def initState (cfg : Config) : SysState :=
  { gen := .running
    workers := List.replicate cfg.par .idle
    workClosed := false
    coll := .running
    resultClosed := false
    supFinished := false
    crashed := false
    dispatched := []
    emitted := []
    genCount := 0 }

/-- The URL the writer picks at its `i`-th send: `urls[rand.Intn(len(urls))]`
(wtickle.go:100). -/
def pickURL (cfg : Config) (env : Env) (i : Nat) : String :=
  cfg.urls.getD (env.rand i % cfg.urls.length) ""

/-- One interleaving step of the pipeline. Every constructor requires the
process to be alive (`crashed = false`, `supFinished = false`): a Go
process ends, goroutines included, when any goroutine panics unrecovered or
when `main` returns. Worker positions are addressed by list surgery
(`l₁ ++ w :: l₂`). -/
inductive Step (cfg : Config) (env : Env) : SysState → SysState → Prop where
  /-- The writer's send rendezvous with an idle worker's receive
  (wtickle.go:100 with wtickle.go:29). -/
  | dispatch (s : SysState) (l₁ l₂ : List WorkerState) (u : String)
      (hcr : s.crashed = false) (hfin : s.supFinished = false)
      (hgen : s.gen = .running) (hopen : s.workClosed = false)
      (hw : s.workers = l₁ ++ WorkerState.idle :: l₂)
      (hu : u = pickURL cfg env s.genCount) :
      Step cfg env s
        { s with workers := l₁ ++ WorkerState.working u :: l₂
                 dispatched := s.dispatched ++ [u]
                 genCount := s.genCount + 1 }
  /-- With a positive duration the timer channel fires; the writer's select
  takes the terminator branch, closes the work channel and returns
  (wtickle.go:90-98). With duration zero the terminator channel is nil and
  this step is never enabled. -/
  | timerClose (s : SysState)
      (hcr : s.crashed = false) (hfin : s.supFinished = false)
      (hdur : cfg.durationPos = true) (hgen : s.gen = .running)
      (hopen : s.workClosed = false) :
      Step cfg env s { s with gen := .closed, workClosed := true }
  /-- Request construction by `http.NewRequest` fails: the worker prints the error and breaks out of
  its loop, calling `wg.Done()` (wtickle.go:31-34, 42). -/
  | constructFail (s : SysState) (l₁ l₂ : List WorkerState) (u e : String)
      (hcr : s.crashed = false) (hfin : s.supFinished = false)
      (hw : s.workers = l₁ ++ WorkerState.working u :: l₂)
      (he : env.constructErr u = some e) :
      Step cfg env s { s with workers := l₁ ++ WorkerState.done :: l₂ }
  /-- Request construction succeeds and `client.Do` returns: the worker now
  holds the outcome and blocks sending it (wtickle.go:30-39). -/
  | performReq (s : SysState) (l₁ l₂ : List WorkerState) (u : String)
      (hcr : s.crashed = false) (hfin : s.supFinished = false)
      (hw : s.workers = l₁ ++ WorkerState.working u :: l₂)
      (he : env.constructErr u = none) :
      Step cfg env s
        { s with workers := l₁ ++ WorkerState.sending (env.respond u) :: l₂ }
  /-- A worker's send rendezvous with the reader's receive, and the reader's
  iteration completes: symbol printed, worker loops back to its receive
  (wtickle.go:39 with wtickle.go:48-79). -/
  | handoffOutcome (s : SysState) (l₁ l₂ : List WorkerState)
      (re : responseWithError) (eff : ReaderEffect)
      (hcr : s.crashed = false) (hfin : s.supFinished = false)
      (hw : s.workers = l₁ ++ WorkerState.sending re :: l₂)
      (hopen : s.resultClosed = false) (hcoll : s.coll = .running)
      (hstep : readerStep re = some eff) :
      Step cfg env s
        { s with workers := l₁ ++ WorkerState.idle :: l₂
                 emitted := s.emitted ++ [eff.emitted] }
  /-- A worker's send rendezvous with the reader's receive, but the reader's
  iteration panics (nil response dereference at wtickle.go:57/73, or
  `Status[0:1]` on an empty status at wtickle.go:70): the process dies. -/
  | collectorCrash (s : SysState) (l₁ l₂ : List WorkerState)
      (re : responseWithError)
      (hcr : s.crashed = false) (hfin : s.supFinished = false)
      (hw : s.workers = l₁ ++ WorkerState.sending re :: l₂)
      (hopen : s.resultClosed = false) (hcoll : s.coll = .running)
      (hstep : readerStep re = none) :
      Step cfg env s { s with crashed := true }
  /-- A worker attempts its send after the result channel was closed: in Go
  a send on a closed channel panics. The ordering theorem shows this step is
  never enabled in a reachable state. -/
  | sendAfterClose (s : SysState) (l₁ l₂ : List WorkerState)
      (re : responseWithError)
      (hcr : s.crashed = false) (hfin : s.supFinished = false)
      (hw : s.workers = l₁ ++ WorkerState.sending re :: l₂)
      (hclosed : s.resultClosed = true) :
      Step cfg env s { s with crashed := true }
  /-- A worker blocked on the closed, drained work channel: its `range`
  loop ends and it calls `wg.Done()` (wtickle.go:29, 42). -/
  | workerExit (s : SysState) (l₁ l₂ : List WorkerState)
      (hcr : s.crashed = false) (hfin : s.supFinished = false)
      (hw : s.workers = l₁ ++ WorkerState.idle :: l₂)
      (hclosed : s.workClosed = true) :
      Step cfg env s { s with workers := l₁ ++ WorkerState.done :: l₂ }
  /-- The barrier `wg.Wait()` returns — every worker has called `wg.Done()` — and `main`
  closes the result channel (wtickle.go:160-161). The guard is the
  sequential order of those two statements. -/
  | supClose (s : SysState)
      (hcr : s.crashed = false) (hfin : s.supFinished = false)
      (hall : ∀ w ∈ s.workers, w = WorkerState.done)
      (hopen : s.resultClosed = false) :
      Step cfg env s { s with resultClosed := true }
  /-- The reader's `range` observes the closed, drained result channel and
  the reader returns (wtickle.go:48, 80). -/
  | collFinish (s : SysState)
      (hcr : s.crashed = false) (hfin : s.supFinished = false)
      (hclosed : s.resultClosed = true) (hcoll : s.coll = .running) :
      Step cfg env s { s with coll := .finished }
  /-- After closing the result channel, `main` closes the log file, prints
  the trailing newline and returns, ending the process (wtickle.go:162-167). -/
  | supFinish (s : SysState)
      (hcr : s.crashed = false) (hfin : s.supFinished = false)
      (hclosed : s.resultClosed = true) :
      Step cfg env s { s with supFinished := true }

/-- States the pipeline can be in, starting from the launch state. -/
def Reachable (cfg : Config) (env : Env) (s : SysState) : Prop :=
  Relation.ReflTransGen (Step cfg env) (initState cfg) s

/-! ## Invariant, measure, and environment assumptions -/

/-- The inductive invariant of the pipeline:

1. once the result channel is closed, every worker has exited (`wg.Wait()`
   closed it, and exits are permanent);
2. the reader returns only after the result channel closes;
3. `main` returns only after it closed the result channel;
4. every outcome a worker is sending came from the HTTP client;
5. every dispatched URL is drawn from the configured set;
6. with duration zero the writer never closes the work channel and never
   returns (the terminator channel is nil, wtickle.go:89-92). -/
def Inv (cfg : Config) (env : Env) (s : SysState) : Prop :=
  (s.resultClosed = true → ∀ w ∈ s.workers, w = WorkerState.done)
  ∧ (s.coll = CollState.finished → s.resultClosed = true)
  ∧ (s.supFinished = true → s.resultClosed = true)
  ∧ (∀ re, WorkerState.sending re ∈ s.workers → ∃ u, re = env.respond u)
  ∧ (cfg.urls ≠ [] → ∀ u ∈ s.dispatched, u ∈ cfg.urls)
  ∧ (cfg.durationPos = false → s.workClosed = false ∧ s.gen = GenState.running)

/-- An environment in which every outcome the HTTP client can produce is one
the reader processes without panicking (in particular, every outcome carries
a response object — exactly what the nil-dereference counterexamples
violate). -/
def NonFaulting (env : Env) : Prop :=
  ∀ u, (readerStep (env.respond u)).isSome = true

/-- How many steps of work a single worker state still holds once the work
channel is closed. -/
def wRank : WorkerState → Nat
  | .working _ => 3
  | .sending _ => 2
  | .idle => 1
  | .done => 0

/-- Termination measure for the drain phase: strictly decreases on every
step taken after the work channel closes. -/
def drainMeasure (s : SysState) : Nat :=
  (s.workers.map wRank).sum
    + (if s.coll = CollState.running then 1 else 0)
    + (if s.resultClosed = true then 0 else 2)
    + (if s.supFinished = true then 0 else 1)
    + (if s.crashed = true then 0 else 1)

/-! ## Concrete instances for witnesses and counterexamples -/

/-- A 200 response, as from a healthy server. -/
def okResp : HttpResponse :=
  { requestURL := "http://example.com/ok"
    status := "200 OK"
    statusCode := 200
    headers := [("Content-Type", ["text/html"])] }

/-- Construction failure of `http.NewRequest` on one malformed URL, success elsewhere. -/
def badURLErr : String → Option String := fun u =>
  if u = "::bad::" then some "missing protocol scheme" else none

/-- An HTTP client that always answers 200. -/
def alwaysOk : Request → responseWithError := fun _ =>
  { resp := some okResp, err := none }

/-- One URL, one worker, positive duration. -/
def cfgA : Config :=
  { urls := ["http://example.com/ok"], par := 1, durationPos := true }

/-- One URL, one worker, duration zero (unbounded mode). -/
def cfgB : Config :=
  { urls := ["http://example.com/ok"], par := 1, durationPos := false }

/-- Two URLs, one worker, positive duration. -/
def cfgC : Config :=
  { urls := ["http://a/ok", "http://a/missing"], par := 1, durationPos := true }

/-- Healthy environment: requests construct, the client answers 200. -/
def envA : Env :=
  { constructErr := fun _ => none
    respond := fun _ => { resp := some okResp, err := none }
    rand := fun _ => 0 }

/-- Environment whose client fails at transport level: `client.Do` returns a
nil response and an error, exactly what wtickle.go:38-39 forwards. -/
def envErr : Env :=
  { constructErr := fun _ => none
    respond := fun _ => { resp := none, err := some "connection refused" }
    rand := fun _ => 0 }

/-- Environment in which every request construction fails. -/
def envFail : Env :=
  { constructErr := fun _ => some "missing protocol scheme"
    respond := fun _ => { resp := some okResp, err := none }
    rand := fun _ => 0 }

/-- Environment picking the second URL each time. -/
def envC : Env :=
  { constructErr := fun _ => none
    respond := fun _ => { resp := some okResp, err := none }
    rand := fun _ => 1 }

/-- The `cfgA` run, after the timer fired. -/
def sA1 : SysState :=
  { gen := .closed, workers := [.idle], workClosed := true, coll := .running
    resultClosed := false, supFinished := false, crashed := false
    dispatched := [], emitted := [], genCount := 0 }

/-- State after the worker observed the closed work channel and exited. -/
def sA2 : SysState := { sA1 with workers := [.done] }

/-- State after `wg.Wait()` returned and `main` closed the result channel. -/
def sA3 : SysState := { sA2 with resultClosed := true }

/-- The `cfgA`/`envErr` run: the worker received the single URL. -/
def sE1 : SysState :=
  { gen := .running, workers := [.working "http://example.com/ok"]
    workClosed := false, coll := .running, resultClosed := false
    supFinished := false, crashed := false
    dispatched := ["http://example.com/ok"], emitted := [], genCount := 1 }

/-- State after `client.Do` returned a nil response with a transport error. -/
def sE2 : SysState :=
  { sE1 with workers :=
      [.sending { resp := none, err := some "connection refused" }] }

/-- State after the reader received the outcome and panicked dereferencing the
nil response (wtickle.go:57): the process is dead. -/
def sE3 : SysState := { sE2 with crashed := true }

/-- The `cfgB`/`envFail` run: the worker received the single URL. -/
def sF1 : SysState :=
  { gen := .running, workers := [.working "http://example.com/ok"]
    workClosed := false, coll := .running, resultClosed := false
    supFinished := false, crashed := false
    dispatched := ["http://example.com/ok"], emitted := [], genCount := 1 }

/-- State after request construction failed and the worker broke out. -/
def sF2 : SysState := { sF1 with workers := [.done] }

/-- State after `wg.Wait()` returned and `main` closed the result channel. -/
def sF3 : SysState := { sF2 with resultClosed := true }

/-- State after `main` returned: the process ended on its own with D == 0. -/
def sF4 : SysState := { sF3 with supFinished := true }

/-- The `cfgC`/`envC` run: the worker received the randomly chosen second URL. -/
def sC1 : SysState :=
  { gen := .running, workers := [.working "http://a/missing"]
    workClosed := false, coll := .running, resultClosed := false
    supFinished := false, crashed := false
    dispatched := ["http://a/missing"], emitted := [], genCount := 1 }

/-! ## Invariant lemmas -/

lemma pickURL_mem {cfg : Config} (env : Env) (i : Nat) (h : cfg.urls ≠ []) :
    pickURL cfg env i ∈ cfg.urls := by
  have hl : 0 < cfg.urls.length := List.length_pos.mpr h
  have hlt : env.rand i % cfg.urls.length < cfg.urls.length := Nat.mod_lt _ hl
  rw [pickURL, List.getD_eq_getElem _ _ hlt]
  exact List.getElem_mem hlt

lemma inv_init (cfg : Config) (env : Env) : Inv cfg env (initState cfg) :=
  ⟨fun hrc => Bool.noConfusion hrc,
   fun hc => CollState.noConfusion hc,
   fun hf => Bool.noConfusion hf,
   fun _ hre => WorkerState.noConfusion (List.eq_of_mem_replicate hre),
   fun _ x hx => absurd hx (List.not_mem_nil x),
   fun _ => ⟨rfl, rfl⟩⟩

lemma inv_step {cfg : Config} {env : Env} {s s' : SysState}
    (hstep : Step cfg env s s') (hinv : Inv cfg env s) : Inv cfg env s' := by
  obtain ⟨hres, hcollf, hsfin, hsend, hdisp, hdur⟩ := hinv
  cases hstep with
  | dispatch l₁ l₂ u hcr hfin hgen hopen hw hu =>
    refine ⟨?_, hcollf, hsfin, ?_, ?_, hdur⟩
    · exact fun hrc =>
        WorkerState.noConfusion (hres hrc WorkerState.idle (by rw [hw]; simp))
    · intro re hre
      simp only [List.mem_append, List.mem_cons] at hre
      rcases hre with h | h | h
      · exact hsend re (by rw [hw]; simp [h])
      · exact WorkerState.noConfusion h
      · exact hsend re (by rw [hw]; simp [h])
    · intro hne x hx
      simp only [List.mem_append, List.mem_cons, List.not_mem_nil, or_false] at hx
      rcases hx with h | h
      · exact hdisp hne x h
      · rw [h, hu]; exact pickURL_mem env _ hne
  | timerClose hcr hfin hdurT hgen hopen =>
    refine ⟨hres, hcollf, hsfin, hsend, hdisp, ?_⟩
    exact fun h => Bool.noConfusion (hdurT.symm.trans h)
  | constructFail l₁ l₂ u e hcr hfin hw he =>
    refine ⟨?_, hcollf, hsfin, ?_, hdisp, hdur⟩
    · exact fun hrc =>
        WorkerState.noConfusion
          (hres hrc (WorkerState.working u) (by rw [hw]; simp))
    · intro re hre
      simp only [List.mem_append, List.mem_cons] at hre
      rcases hre with h | h | h
      · exact hsend re (by rw [hw]; simp [h])
      · exact WorkerState.noConfusion h
      · exact hsend re (by rw [hw]; simp [h])
  | performReq l₁ l₂ u hcr hfin hw he =>
    refine ⟨?_, hcollf, hsfin, ?_, hdisp, hdur⟩
    · exact fun hrc =>
        WorkerState.noConfusion
          (hres hrc (WorkerState.working u) (by rw [hw]; simp))
    · intro re hre
      simp only [List.mem_append, List.mem_cons] at hre
      rcases hre with h | h | h
      · exact hsend re (by rw [hw]; simp [h])
      · exact ⟨u, WorkerState.sending.inj h⟩
      · exact hsend re (by rw [hw]; simp [h])
  | handoffOutcome l₁ l₂ re eff hcr hfin hw hopen hcoll hrs =>
    refine ⟨?_, hcollf, hsfin, ?_, hdisp, hdur⟩
    · exact fun hrc => Bool.noConfusion (hopen.symm.trans hrc)
    · intro re' hre
      simp only [List.mem_append, List.mem_cons] at hre
      rcases hre with h | h | h
      · exact hsend re' (by rw [hw]; simp [h])
      · exact WorkerState.noConfusion h
      · exact hsend re' (by rw [hw]; simp [h])
  | collectorCrash l₁ l₂ re hcr hfin hw hopen hcoll hrs =>
    exact ⟨hres, hcollf, hsfin, hsend, hdisp, hdur⟩
  | sendAfterClose l₁ l₂ re hcr hfin hw hclosed =>
    exact WorkerState.noConfusion
      (hres hclosed (WorkerState.sending re) (by rw [hw]; simp))
  | workerExit l₁ l₂ hcr hfin hw hclosed =>
    refine ⟨?_, hcollf, hsfin, ?_, hdisp, ?_⟩
    · intro hrc w hwm
      simp only [List.mem_append, List.mem_cons] at hwm
      rcases hwm with h | h | h
      · exact hres hrc w (by rw [hw]; simp [h])
      · exact h
      · exact hres hrc w (by rw [hw]; simp [h])
    · intro re hre
      simp only [List.mem_append, List.mem_cons] at hre
      rcases hre with h | h | h
      · exact hsend re (by rw [hw]; simp [h])
      · exact WorkerState.noConfusion h
      · exact hsend re (by rw [hw]; simp [h])
    · exact fun hDf => Bool.noConfusion ((hdur hDf).1.symm.trans hclosed)
  | supClose hcr hfin hall hopen =>
    exact ⟨fun _ => hall, fun _ => rfl, fun _ => rfl, hsend, hdisp,
      fun hDf => hdur hDf⟩
  | collFinish hcr hfin hclosed hcoll =>
    exact ⟨hres, fun _ => hclosed, fun _ => hclosed, hsend, hdisp, hdur⟩
  | supFinish hcr hfin hclosed =>
    exact ⟨hres, hcollf, fun _ => hclosed, hsend, hdisp, hdur⟩

lemma inv_reachable {cfg : Config} {env : Env} {s : SysState}
    (h : Reachable cfg env s) : Inv cfg env s := by
  induction h with
  | refl => exact inv_init cfg env
  | tail hsteps hstep ih => exact inv_step hstep ih

/-! ## Crash, liveness and termination lemmas -/

/-- A dead process — a crashed goroutine or a returned `main` — takes no
further step. -/
lemma not_step_of_dead {cfg : Config} {env : Env} {s s' : SysState}
    (h : s.crashed = true ∨ s.supFinished = true) : ¬ Step cfg env s s' := by
  intro hstep
  cases hstep <;> rcases h with h | h <;> simp_all

/-- Once the work channel is closed it stays closed. -/
lemma step_workClosed_mono {cfg : Config} {env : Env} {s s' : SysState}
    (hstep : Step cfg env s s') (h : s.workClosed = true) :
    s'.workClosed = true := by
  cases hstep <;> simp [h]

/-- Under a non-faulting environment no reachable state is crashed: the two
crash steps require either a faulting outcome or a send after close, and
the invariant rules both out. -/
lemma crashed_false_of_reachable {cfg : Config} {env : Env} {s : SysState}
    (hnf : NonFaulting env) (h : Reachable cfg env s) : s.crashed = false := by
  induction h with
  | refl => rfl
  | tail hsteps hstep ih =>
    obtain ⟨hres, hcollf, hsfin, hsend, hdisp, hdur⟩ :=
      (inv_reachable hsteps : Inv cfg env _)
    cases hstep with
    | collectorCrash l₁ l₂ re hcr hfin hw hopen hcoll hrs =>
      obtain ⟨u, rfl⟩ := hsend re (by rw [hw]; simp)
      have h1 := hnf u
      rw [hrs] at h1
      exact Bool.noConfusion h1
    | sendAfterClose l₁ l₂ re hcr hfin hw hclosed =>
      exact WorkerState.noConfusion
        (hres hclosed (WorkerState.sending re) (by rw [hw]; simp))
    | dispatch l₁ l₂ u hcr hfin hgen hopen hw hu => exact ih
    | timerClose hcr hfin hdurT hgen hopen => exact ih
    | constructFail l₁ l₂ u e hcr hfin hw he => exact ih
    | performReq l₁ l₂ u hcr hfin hw he => exact ih
    | handoffOutcome l₁ l₂ re eff hcr hfin hw hopen hcoll hrs => exact ih
    | workerExit l₁ l₂ hcr hfin hw hclosed => exact ih
    | supClose hcr hfin hall hopen => exact ih
    | collFinish hcr hfin hclosed hcoll => exact ih
    | supFinish hcr hfin hclosed => exact ih

/-- Every step taken after the work channel has closed strictly decreases
the drain measure: the closure disables the only two non-decreasing steps
(the writer's dispatch and the timer). -/
lemma drainMeasure_decreasing {cfg : Config} {env : Env} {s s' : SysState}
    (hstep : Step cfg env s s') (hclosed : s.workClosed = true) :
    drainMeasure s' < drainMeasure s := by
  cases hstep with
  | dispatch l₁ l₂ u hcr hfin hgen hopen hw hu =>
    exact Bool.noConfusion (hopen.symm.trans hclosed)
  | timerClose hcr hfin hdurT hgen hopen =>
    exact Bool.noConfusion (hopen.symm.trans hclosed)
  | constructFail l₁ l₂ u e hcr hfin hw he =>
    simp [drainMeasure, hw, wRank]
  | performReq l₁ l₂ u hcr hfin hw he =>
    simp [drainMeasure, hw, wRank]
  | handoffOutcome l₁ l₂ re eff hcr hfin hw hopen hcoll hrs =>
    simp [drainMeasure, hw, wRank]
  | collectorCrash l₁ l₂ re hcr hfin hw hopen hcoll hrs =>
    simp [drainMeasure, hcr]
  | sendAfterClose l₁ l₂ re hcr hfin hw hclosed' =>
    simp [drainMeasure, hcr]
  | workerExit l₁ l₂ hcr hfin hw hclosed' =>
    simp [drainMeasure, hw, wRank]
  | supClose hcr hfin hall hopen =>
    simp [drainMeasure, hopen]
  | collFinish hcr hfin hclosed' hcoll =>
    simp [drainMeasure, hcoll]
  | supFinish hcr hfin hclosed' =>
    simp [drainMeasure, hfin]

/-- There is no infinite execution in which the work channel is closed. -/
lemma no_infinite_run (cfg : Config) (env : Env) (f : Nat → SysState)
    (hstep : ∀ k, Step cfg env (f k) (f (k + 1)))
    (h0 : (f 0).workClosed = true) : False := by
  have hcl : ∀ k, (f k).workClosed = true := by
    intro k
    induction k with
    | zero => exact h0
    | succ n ih => exact step_workClosed_mono (hstep n) ih
  have hdec : ∀ k, drainMeasure (f (k + 1)) < drainMeasure (f k) :=
    fun k => drainMeasure_decreasing (hstep k) (hcl k)
  have hbound : ∀ k, drainMeasure (f k) + k ≤ drainMeasure (f 0) := by
    intro k
    induction k with
    | zero => simp
    | succ n ih => have := hdec n; omega
  have := hbound (drainMeasure (f 0) + 1)
  omega

/-- Either every worker has exited, or some worker position still holds
work. -/
lemma allDone_or_split (l : List WorkerState) :
    (∀ w ∈ l, w = WorkerState.done)
    ∨ ∃ l₁ w l₂, l = l₁ ++ w :: l₂ ∧ w ≠ WorkerState.done := by
  induction l with
  | nil => exact Or.inl (by simp)
  | cons a t ih =>
    by_cases ha : a = WorkerState.done
    · rcases ih with hall | ⟨l₁, w, l₂, heq, hne⟩
      · refine Or.inl ?_
        intro w hw
        rcases List.mem_cons.mp hw with h | h
        · rw [h, ha]
        · exact hall w h
      · exact Or.inr ⟨a :: l₁, w, l₂, by rw [heq]; rfl, hne⟩
    · exact Or.inr ⟨[], a, t, rfl, ha⟩

/-- Progress during the drain phase: a live state with the work channel
closed always has a next step under a non-faulting environment. -/
lemma progress {cfg : Config} {env : Env} {s : SysState}
    (hnf : NonFaulting env) (hinv : Inv cfg env s)
    (hcr : s.crashed = false) (hfin : s.supFinished = false)
    (hclosed : s.workClosed = true) : ∃ s', Step cfg env s s' := by
  obtain ⟨hres, hcollf, hsfin, hsend, hdisp, hdur⟩ := hinv
  rcases allDone_or_split s.workers with hall | ⟨l₁, w, l₂, heq, hne⟩
  · by_cases hrc : s.resultClosed = true
    · exact ⟨_, Step.supFinish s hcr hfin hrc⟩
    · exact ⟨_, Step.supClose s hcr hfin hall (by simpa using hrc)⟩
  · cases w with
    | idle => exact ⟨_, Step.workerExit s l₁ l₂ hcr hfin heq hclosed⟩
    | done => exact absurd rfl hne
    | working u =>
      cases he : env.constructErr u with
      | some e => exact ⟨_, Step.constructFail s l₁ l₂ u e hcr hfin heq he⟩
      | none => exact ⟨_, Step.performReq s l₁ l₂ u hcr hfin heq he⟩
    | sending re =>
      have hrc : s.resultClosed = false := by
        cases hb : s.resultClosed with
        | false => rfl
        | true =>
          exact WorkerState.noConfusion
            (hres hb (WorkerState.sending re) (by rw [heq]; simp))
      have hcl : s.coll = CollState.running := by
        cases hc : s.coll with
        | running => rfl
        | finished => exact Bool.noConfusion ((hcollf hc).symm.trans hrc)
      obtain ⟨u, rfl⟩ := hsend re (by rw [heq]; simp)
      have h1 := hnf u
      cases hrs : readerStep (env.respond u) with
      | none => rw [hrs] at h1; exact Bool.noConfusion h1
      | some eff =>
        exact ⟨_, Step.handoffOutcome s l₁ l₂ _ eff hcr hfin heq hrc hcl hrs⟩

/-! ## Concrete executions -/

/-- Timer fires, the single worker exits, `main` closes the result channel. -/
lemma reachable_sA3 : Reachable cfgA envA sA3 := by
  have h1 : Step cfgA envA (initState cfgA) sA1 :=
    Step.timerClose (initState cfgA) rfl rfl rfl rfl rfl
  have h2 : Step cfgA envA sA1 sA2 :=
    Step.workerExit sA1 [] [] rfl rfl rfl rfl
  have h3 : Step cfgA envA sA2 sA3 :=
    Step.supClose sA2 rfl rfl (by decide) rfl
  exact Relation.ReflTransGen.tail
    (Relation.ReflTransGen.tail
      (Relation.ReflTransGen.tail Relation.ReflTransGen.refl h1) h2) h3

/-- Dispatch, transport failure, collector panic on the nil response. -/
lemma reachable_sE3 : Reachable cfgA envErr sE3 := by
  have h1 : Step cfgA envErr (initState cfgA) sE1 :=
    Step.dispatch (initState cfgA) [] [] "http://example.com/ok"
      rfl rfl rfl rfl rfl rfl
  have h2 : Step cfgA envErr sE1 sE2 :=
    Step.performReq sE1 [] [] "http://example.com/ok" rfl rfl rfl rfl
  have h3 : Step cfgA envErr sE2 sE3 :=
    Step.collectorCrash sE2 [] []
      { resp := none, err := some "connection refused" } rfl rfl rfl rfl rfl rfl
  exact Relation.ReflTransGen.tail
    (Relation.ReflTransGen.tail
      (Relation.ReflTransGen.tail Relation.ReflTransGen.refl h1) h2) h3

/-- Dispatch, construction failure, barrier reaches zero, `main` returns —
all with duration zero. -/
lemma reachable_sF4 : Reachable cfgB envFail sF4 := by
  have h1 : Step cfgB envFail (initState cfgB) sF1 :=
    Step.dispatch (initState cfgB) [] [] "http://example.com/ok"
      rfl rfl rfl rfl rfl rfl
  have h2 : Step cfgB envFail sF1 sF2 :=
    Step.constructFail sF1 [] [] "http://example.com/ok"
      "missing protocol scheme" rfl rfl rfl rfl
  have h3 : Step cfgB envFail sF2 sF3 :=
    Step.supClose sF2 rfl rfl (by decide) rfl
  have h4 : Step cfgB envFail sF3 sF4 :=
    Step.supFinish sF3 rfl rfl rfl
  exact Relation.ReflTransGen.tail
    (Relation.ReflTransGen.tail
      (Relation.ReflTransGen.tail
        (Relation.ReflTransGen.tail Relation.ReflTransGen.refl h1) h2) h3) h4

/-- One dispatch of the randomly selected second URL. -/
lemma reachable_sC1 : Reachable cfgC envC sC1 := by
  have h1 : Step cfgC envC (initState cfgC) sC1 :=
    Step.dispatch (initState cfgC) [] [] "http://a/missing"
      rfl rfl rfl rfl rfl rfl
  exact Relation.ReflTransGen.tail Relation.ReflTransGen.refl h1

/-! ## Claims -/

/-- C1: the collector's progress character is `.` for an HTTP 200 response,
the first character of the status line for any other response, and `e` for a
transport error that still carries a response object — but for a transport
error with no response object (the normal shape `client.Do` produces on a
connection failure) the collector panics at wtickle.go:57 before printing
anything, so no `e` is ever emitted for it: the first conjunct evaluates the
collector at that failing input. -/
theorem reader_symbol_classification :
    readerSymbol { resp := none, err := some "connection refused" } = none
    ∧ (∀ r : HttpResponse, readerSymbol { resp := some r, err := none } =
        (if r.statusCode = 200 then some "."
         else if r.status = "" then none
         else some (r.status.take 1)))
    ∧ (∀ (r : HttpResponse) (e : String),
        readerSymbol { resp := some r, err := some e } = some "e") := by
  refine ⟨rfl, ?_, ?_⟩
  · intro r
    by_cases h200 : r.statusCode = 200
    · simp [readerSymbol, readerStep, h200]
    · by_cases hst : r.status = "" <;> simp [readerSymbol, readerStep, h200, hst]
  · intro r e
    rfl

/-- C2: whenever the collector's iteration completes, the response body was
closed (`re.resp.Body.Close()` at wtickle.go:73 is on every completing
path) — but on a transport-error outcome with no response object the
iteration does not complete: it dereferences the nil response (wtickle.go:57
and 73) and panics, which the first conjunct evaluates. -/
theorem reader_nil_response_safety :
    readerStep { resp := none, err := some "connection refused" } = none
    ∧ (∀ (r : HttpResponse) (e : Option String),
        ((readerStep { resp := some r, err := e }).map
            ReaderEffect.bodyClosed).getD true = true) := by
  refine ⟨rfl, ?_⟩
  intro r e
  cases e with
  | some e => rfl
  | none =>
    by_cases h200 : r.statusCode = 200
    · simp [readerStep, h200]
    · by_cases hst : r.status = "" <;> simp [readerStep, h200, hst]

/-- C9: the log record for an outcome carrying a response is the request URL
line, one summary line (status line for 200, `Error ...` for a transport
error that carries a response, the response rendering otherwise), header
lines only in the 200 case, and the two empty terminator lines — but for a
transport-error outcome with no response object no record is appended at
all: the collector panics (first conjunct). -/
theorem reader_log_record_structure :
    readerRecord { resp := none, err := some "connection refused" } = none
    ∧ (∀ (r : HttpResponse) (e : String),
        readerRecord { resp := some r, err := some e } =
          some [r.requestURL, "Error " ++ e, "", ""])
    ∧ (∀ r : HttpResponse, readerRecord { resp := some r, err := none } =
        (if r.statusCode = 200 then
          some ([r.requestURL, r.status] ++ r.headers.map headerLine ++ ["", ""])
         else if r.status = "" then none
         else some [r.requestURL, respSummary r, "", ""])) := by
  refine ⟨rfl, ?_, ?_⟩
  · intro r e
    rfl
  · intro r
    by_cases h200 : r.statusCode = 200
    · simp [readerRecord, readerStep, h200]
    · by_cases hst : r.status = "" <;> simp [readerRecord, readerStep, h200, hst]

/-- C3 (counterexample): a worker given the single malformed item `::bad::`
sends no outcome at all — it prints the error on standard output and breaks
out of its loop — so nothing reaches the collector: no `e` symbol and no
log record can be derived from its (empty) output, refuting the claim that
construction failures are classified as `e` and logged. -/
theorem worker_construct_fail_counterexample :
    workerRun badURLErr alwaysOk "" "" ["::bad::"]
      = ([], ["Error creating request: missing protocol scheme"])
    ∧ (workerRun badURLErr alwaysOk "" "" ["::bad::"]).1.filterMap readerSymbol
        = []
    ∧ (workerRun badURLErr alwaysOk "" "" ["::bad::"]).1.filterMap readerRecord
        = [] := by
  refine ⟨?_, ?_, ?_⟩ <;> rfl

/-- C3 (amended): a request-construction failure is non-fatal to the run as
a whole, but the worker merely prints `Error creating request: <error>` on
standard output and permanently exits its loop, sending no outcome — so no
`e` symbol is emitted and nothing is logged for it; in the pipeline the
failure is an ordinary step that leaves the process alive. -/
theorem worker_construct_fail_behavior :
    ∀ (cE : String → Option String) (dR : Request → responseWithError)
      (hdr val u e : String) (rest : List String),
      cE u = some e →
      workerRun cE dR hdr val (u :: rest)
        = ([], ["Error creating request: " ++ e])
      ∧ ∀ (cfg : Config) (env : Env) (s : SysState)
          (l₁ l₂ : List WorkerState),
          s.crashed = false → s.supFinished = false →
          s.workers = l₁ ++ WorkerState.working u :: l₂ →
          env.constructErr u = some e →
          Step cfg env s { s with workers := l₁ ++ WorkerState.done :: l₂ }
          ∧ ({ s with workers := l₁ ++ WorkerState.done :: l₂ } :
              SysState).crashed = false := by
  intro cE dR hdr val u e rest h
  refine ⟨by simp [workerRun, h], ?_⟩
  intro cfg env s l₁ l₂ hcr hfin hw he
  exact ⟨Step.constructFail s l₁ l₂ u e hcr hfin hw he, hcr⟩

/-- C3 (witness): the amended theorem applied to the concrete malformed
item. -/
theorem worker_construct_fail_behavior_witness :
    workerRun badURLErr alwaysOk "" "" ["::bad::"]
      = ([], ["Error creating request: missing protocol scheme"]) :=
  (worker_construct_fail_behavior badURLErr alwaysOk "" "" "::bad::"
    "missing protocol scheme" [] (by decide)).1

/-- C4: in every reachable state with the outcome (result) channel closed,
every worker has exited — in particular no worker is blocked sending an
outcome, so no send onto the outcome queue can occur after it is closed;
the close itself is guarded by `wg.Wait()` (wtickle.go:160-161), modelled
by the `supClose` transition. -/
theorem outcome_queue_close_ordering :
    ∀ (cfg : Config) (env : Env) (s : SysState),
      Reachable cfg env s → s.resultClosed = true →
      (∀ w ∈ s.workers, w = WorkerState.done)
      ∧ ∀ re : responseWithError, WorkerState.sending re ∉ s.workers := by
  intro cfg env s hreach hrc
  obtain ⟨hres, -, -, -, -, -⟩ := inv_reachable hreach
  refine ⟨hres hrc, ?_⟩
  intro re hmem
  exact WorkerState.noConfusion (hres hrc (WorkerState.sending re) hmem)

/-- C4 (witness): the ordering theorem applied to a concrete run in which
the timer fired, the single worker exited and `main` closed the result
channel. -/
theorem outcome_queue_close_ordering_witness :
    (∀ w ∈ sA3.workers, w = WorkerState.done)
    ∧ ∀ re : responseWithError, WorkerState.sending re ∉ sA3.workers :=
  outcome_queue_close_ordering cfgA envA sA3 reachable_sA3 rfl

/-- C5 (counterexample): a run with positive duration in which the single
request hits a transport error: the collector panics on the nil response
and the process dies with the work queue never closed, the supervisor never
finished, and no further step possible — refuting the claim that every
positive-duration run ends with the timer closing the queue, the workers
exiting and the supervisor running to completion. -/
theorem duration_termination_counterexample :
    cfgA.durationPos = true
    ∧ Reachable cfgA envErr sE3
    ∧ (∀ s', ¬ Step cfgA envErr sE3 s')
    ∧ sE3.crashed = true
    ∧ sE3.supFinished = false
    ∧ sE3.workClosed = false := by
  refine ⟨rfl, reachable_sE3, ?_, rfl, rfl, rfl⟩
  intro s'
  exact not_step_of_dead (Or.inl rfl)

/-- C5 (amended): with a positive duration and an environment whose
outcomes the collector processes without fault, the run terminates once the
timer fires: no execution in which the work queue closes can be infinite,
and any reachable state with the queue closed from which no step is
possible has the supervisor finished, no crash, and every worker exited.
(That the timer fires within real time D is a real-time property outside
the model; without the non-faulting proviso the collector can crash the
process first — see the counterexample.) -/
theorem duration_termination :
    ∀ (cfg : Config) (env : Env),
      cfg.urls ≠ [] → 1 ≤ cfg.par → cfg.durationPos = true →
      NonFaulting env →
      (∀ f : Nat → SysState, f 0 = initState cfg →
        (∀ k, Step cfg env (f k) (f (k + 1))) →
        ∀ k, (f k).workClosed = false)
      ∧ (∀ s : SysState, Reachable cfg env s →
          (∀ s', ¬ Step cfg env s s') → s.workClosed = true →
          s.supFinished = true ∧ s.crashed = false
            ∧ ∀ w ∈ s.workers, w = WorkerState.done) := by
  intro cfg env hurls hpar hdur hnf
  constructor
  · intro f h0 hsteps k
    cases hk : (f k).workClosed with
    | false => rfl
    | true =>
      exact absurd hk (fun hk' =>
        no_infinite_run cfg env (fun j => f (k + j))
          (fun j => hsteps (k + j)) hk')
  · intro s hreach hstuck hclosed
    have hcr := crashed_false_of_reachable hnf hreach
    have hinv := inv_reachable hreach
    obtain ⟨hres, hcollf, hsfin, hsend, hdisp, hdur2⟩ := hinv
    have hsf : s.supFinished = true := by
      cases hb : s.supFinished with
      | true => rfl
      | false =>
        obtain ⟨s', hs'⟩ :=
          progress hnf ⟨hres, hcollf, hsfin, hsend, hdisp, hdur2⟩ hcr hb hclosed
        exact absurd hs' (hstuck s')
    exact ⟨hsf, hcr, hres (hsfin hsf)⟩

/-- C5 (witness): the amended theorem applied to the concrete one-URL,
one-worker, positive-duration configuration and the healthy environment. -/
theorem duration_termination_witness :
    (∀ f : Nat → SysState, f 0 = initState cfgA →
      (∀ k, Step cfgA envA (f k) (f (k + 1))) →
      ∀ k, (f k).workClosed = false)
    ∧ (∀ s : SysState, Reachable cfgA envA s →
        (∀ s', ¬ Step cfgA envA s s') → s.workClosed = true →
        s.supFinished = true ∧ s.crashed = false
          ∧ ∀ w ∈ s.workers, w = WorkerState.done) :=
  duration_termination cfgA envA (by decide) (by decide) rfl (fun _ => rfl)

/-- C6 (counterexample): with duration zero, one URL whose request
construction always fails and one worker, the process ends on its own: the
worker breaks out, the barrier reaches zero, `main` closes the result
channel and returns — refuting the claim that a D == 0 run never
self-terminates. -/
theorem unbounded_mode_counterexample :
    cfgB.durationPos = false
    ∧ Reachable cfgB envFail sF4
    ∧ sF4.supFinished = true
    ∧ (∀ s', ¬ Step cfgB envFail sF4 s') := by
  refine ⟨rfl, reachable_sF4, rfl, ?_⟩
  intro s'
  exact not_step_of_dead (Or.inr rfl)

/-- C6 (amended): with duration zero the writer never closes the work queue
and never returns (its terminator channel is nil, wtickle.go:89-92) — but
the process can still end on its own when every worker exits through a
request-construction failure, after which `wg.Wait()` returns and `main`
completes (see the counterexample). -/
theorem unbounded_mode_generator :
    ∀ (cfg : Config) (env : Env) (s : SysState),
      cfg.durationPos = false → Reachable cfg env s →
      s.workClosed = false ∧ s.gen = GenState.running := by
  intro cfg env s hdur hreach
  obtain ⟨-, -, -, -, -, hd⟩ := inv_reachable hreach
  exact hd hdur

/-- C6 (witness): the amended theorem applied to the duration-zero
configuration at its launch state. -/
theorem unbounded_mode_generator_witness :
    (initState cfgB).workClosed = false
    ∧ (initState cfgB).gen = GenState.running :=
  unbounded_mode_generator cfgB envA (initState cfgB) rfl
    Relation.ReflTransGen.refl

/-- C7: in every reachable state of a run over a non-empty URL set, every
URL the writer has dispatched is an element of the configured set — the
writer only ever sends `urls[rand.Intn(len(urls))]` (wtickle.go:100). -/
theorem dispatched_urls_from_set :
    ∀ (cfg : Config) (env : Env) (s : SysState),
      cfg.urls ≠ [] → Reachable cfg env s →
      ∀ u ∈ s.dispatched, u ∈ cfg.urls := by
  intro cfg env s hne hreach
  obtain ⟨-, -, -, -, hd, -⟩ := inv_reachable hreach
  exact hd hne

/-- C7 (witness): the theorem applied to a concrete two-URL run after one
dispatch of the randomly selected URL, at the dispatched URL itself. -/
theorem dispatched_urls_from_set_witness :
    "http://a/missing" ∈ cfgC.urls :=
  dispatched_urls_from_set cfgC envC sC1 (by decide) reachable_sC1
    "http://a/missing" (by decide)

/-- A header string that is empty or splits into exactly two parts is
accepted. -/
lemma parseHeader_ok (header : String)
    (h : header = "" ∨ (splitN2 header).length = 2) :
    ∃ p, parseHeader header = .ok p := by
  rcases h with rfl | hlen
  · exact ⟨("", ""), rfl⟩
  · have hne : header ≠ "" := by
      intro h0
      rw [h0] at hlen
      have hempty : splitN2 "" = [""] := rfl
      rw [hempty] at hlen
      simp at hlen
    obtain ⟨a, b, hab⟩ := List.length_eq_two.mp hlen
    refine ⟨(a, b), ?_⟩
    unfold parseHeader
    rw [if_neg hne, hab]

/-- C8: each fatal configuration error — a non-empty header string that does
not split on its first space into exactly two parts, a log path whose
creation fails, or an input whose lines are all blank — makes `main` return
the corresponding single diagnostic before any channel or goroutine exists,
so zero requests are issued whatever the run would have done. The checks
happen in source order: header, then log file, then URLs. -/
theorem fatal_config_errors :
    (∀ (par : Nat) (header : String) (durPos : Bool) (logPath : String)
        (logFails : Bool) (lines : List String) (run : Launched → List String),
        header ≠ "" → (splitN2 header).length ≠ 2 →
        mainSetup par header durPos logPath logFails lines
          = .error (.badHeader header)
        ∧ requestsIssued (mainSetup par header durPos logPath logFails lines)
            run = [])
    ∧ (∀ (par : Nat) (header : String) (durPos : Bool) (logPath : String)
        (lines : List String) (run : Launched → List String),
        (header = "" ∨ (splitN2 header).length = 2) → logPath ≠ "" →
        mainSetup par header durPos logPath true lines
          = .error (.badLogFile logPath)
        ∧ requestsIssued (mainSetup par header durPos logPath true lines)
            run = [])
    ∧ (∀ (par : Nat) (header : String) (durPos : Bool) (logPath : String)
        (logFails : Bool) (lines : List String) (run : Launched → List String),
        (header = "" ∨ (splitN2 header).length = 2) →
        (logPath = "" ∨ logFails = false) →
        lines.filter (fun u => u ≠ "") = [] →
        mainSetup par header durPos logPath logFails lines = .error .noURLs
        ∧ requestsIssued (mainSetup par header durPos logPath logFails lines)
            run = []) := by
  refine ⟨?_, ?_, ?_⟩
  · intro par header durPos logPath logFails lines run hne hlen
    have hph : parseHeader header = .error (.badHeader header) := by
      unfold parseHeader
      rw [if_neg hne]
      rcases hsp : splitN2 header with _ | ⟨x, _ | ⟨y, _ | ⟨z, t⟩⟩⟩
      · rfl
      · rfl
      · rw [hsp] at hlen
        exact absurd rfl hlen
      · rfl
    have heq : mainSetup par header durPos logPath logFails lines
        = .error (.badHeader header) := by
      simp only [mainSetup, hph]
    exact ⟨heq, by rw [heq]; rfl⟩
  · intro par header durPos logPath lines run hok hlog
    obtain ⟨⟨hdr, val⟩, hph⟩ := parseHeader_ok header hok
    have heq : mainSetup par header durPos logPath true lines
        = .error (.badLogFile logPath) := by
      simp only [mainSetup, hph]
      rw [if_pos ⟨hlog, trivial⟩]
    exact ⟨heq, by rw [heq]; rfl⟩
  · intro par header durPos logPath logFails lines run hok hlogok hfil
    obtain ⟨⟨hdr, val⟩, hph⟩ := parseHeader_ok header hok
    have hcond : ¬ (logPath ≠ "" ∧ logFails = true) := by
      rcases hlogok with h | h
      · exact fun hc => hc.1 h
      · exact fun hc => Bool.noConfusion (h.symm.trans hc.2)
    have heq : mainSetup par header durPos logPath logFails lines
        = .error .noURLs := by
      simp only [mainSetup, hph]
      rw [if_neg hcond]
      simp only [hfil]
      rfl
    exact ⟨heq, by rw [heq]; rfl⟩

/-- C8 (witness): the three fatal errors at concrete inputs — the spec's
`"BadHeader"` example, a failing log-file creation, and a blank-only URL
input. -/
theorem fatal_config_errors_witness :
    (mainSetup 10 "BadHeader" false "" false ["http://example.com/ok"]
        = .error (.badHeader "BadHeader")
      ∧ requestsIssued
          (mainSetup 10 "BadHeader" false "" false ["http://example.com/ok"])
          (fun l => l.urls) = [])
    ∧ (mainSetup 10 "X-Test custom" false "wtickle.log" true
          ["http://example.com/ok"] = .error (.badLogFile "wtickle.log")
      ∧ requestsIssued
          (mainSetup 10 "X-Test custom" false "wtickle.log" true
            ["http://example.com/ok"]) (fun l => l.urls) = [])
    ∧ (mainSetup 10 "" false "" false [""] = .error .noURLs
      ∧ requestsIssued (mainSetup 10 "" false "" false [""])
          (fun l => l.urls) = []) :=
  ⟨fatal_config_errors.1 10 "BadHeader" false "" false
      ["http://example.com/ok"] (fun l => l.urls) (by decide) (by decide),
   fatal_config_errors.2.1 10 "X-Test custom" false "wtickle.log"
      ["http://example.com/ok"] (fun l => l.urls) (Or.inr (by decide))
      (by decide),
   fatal_config_errors.2.2 10 "" false "" false [""] (fun l => l.urls)
      (Or.inl rfl) (Or.inl rfl) (by decide)⟩

/-- C10: a header string whose first-space split yields an empty name and a
non-empty value — e.g. any value beginning with a space like `" custom"` —
is accepted by `main` (the split has exactly two parts, wtickle.go:114-121),
and because the worker attaches the header only when the name is non-empty
(wtickle.go:35-37), every request it builds carries no extra header at
all. -/
theorem header_leading_space :
    ∀ (header v : String), v ≠ "" → splitN2 header = ["", v] →
      parseHeader header = .ok ("", v)
      ∧ mainSetup 10 header false "" false ["http://example.com/ok"]
          = .ok { hdr := "", val := v, logConfigured := false
                  urls := ["http://example.com/ok"], par := 10
                  durationPos := false }
      ∧ ∀ (cE : String → Option String) (url : String),
          ((workerRequest cE "" v url).map Request.headers).getD [] = [] := by
  intro header v hv hsp
  have hne : header ≠ "" := by
    intro h0
    rw [h0] at hsp
    have hempty : splitN2 "" = [""] := rfl
    rw [hempty] at hsp
    simp at hsp
  have hph : parseHeader header = .ok ("", v) := by
    unfold parseHeader
    rw [if_neg hne, hsp]
  refine ⟨hph, ?_, ?_⟩
  · simp only [mainSetup, hph]
    rfl
  · intro cE url
    cases h : cE url with
    | some e => simp [workerRequest, h]
    | none => simp [workerRequest, h]

/-- C10 (witness): the theorem at the concrete header value `" custom"`. -/
theorem header_leading_space_witness :
    parseHeader " custom" = .ok ("", "custom")
    ∧ mainSetup 10 " custom" false "" false ["http://example.com/ok"]
        = .ok { hdr := "", val := "custom", logConfigured := false
                urls := ["http://example.com/ok"], par := 10
                durationPos := false }
    ∧ ∀ (cE : String → Option String) (url : String),
        ((workerRequest cE "" "custom" url).map Request.headers).getD []
          = [] :=
  header_leading_space " custom" "custom" (by decide) (by decide)

end Wtickle
